import Mathlib

/-!
Shallow embedding of the booking core of the `testdrive` dealership
application: the `Booking`/`EmailLog` data model (`bookings/models.py`),
the email dispatch service (`bookings/email_service.py`), the public
booking views (`bookings/views.py`), the staff admin actions
(`bookings/admin.py`) and the booking form validation
(`bookings/forms.py`).  Machine state is a list of booking rows plus a
list of email-log rows; every operation of the source is a function on
that state.
-/

namespace TestDrive

/-- A calendar date (used for `dob` and, abstractly, for slots). -/
structure DateYMD where
  year : Nat
  month : Nat
  day : Nat
deriving DecidableEq, Repr

/-- A registered user (`settings.AUTH_USER_MODEL`): the fields the booking
core reads are the primary key and the email address. -/
structure UserRow where
  id : Nat
  email : String
deriving DecidableEq, Repr

/-- One row of the `Booking` table (`bookings/models.py`).  `user` is the
nullable foreign key; dates and times are opaque identifiers except for
`dob`, whose arithmetic matters to the age gate. -/
structure BookingRow where
  id : Nat
  vehicle : Nat
  user : Option UserRow
  guest_name : String
  guest_email : String
  guest_phone : String
  dob : DateYMD
  requested_date : Nat
  requested_time : Nat
  status : String
  staff_notes : String
  created_at : Nat
  updated_at : Nat
deriving DecidableEq, Repr

/-- The value the `user` foreign key column stores: the user id, or NULL. -/
def BookingRow.userId (b : BookingRow) : Option Nat := b.user.map UserRow.id

/-- One row of the `EmailLog` table (`bookings/models.py`). -/
structure EmailLogRow where
  booking_id : Nat
  email_type : String
  recipient_email : String
  subject : String
  sent_successfully : Bool
  error_message : String
deriving DecidableEq, Repr

/-- The database state: booking rows, email-log rows, and the next
surrogate id the store will hand out. -/
structure DBState where
  bookings : List BookingRow
  emailLogs : List EmailLogRow
  nextId : Nat
deriving DecidableEq, Repr

/-- The empty database. -/
def dbInit : DBState := { bookings := [], emailLogs := [], nextId := 0 }

/-- Both rows name the same (requested_date, requested_time) slot. -/
def sameSlot (a b : BookingRow) : Bool :=
  a.requested_date == b.requested_date && a.requested_time == b.requested_time

/-- Two rows violate one of the three partial unique constraints of
`Booking.Meta.constraints`: both rows are in the partial index
(status not `canceled`), share the slot, and share the registered user
(SQL treats NULL user values as distinct), the guest identity, or the
vehicle. -/
def conflicts (a b : BookingRow) : Bool :=
  a.status != "canceled" && b.status != "canceled" && sameSlot a b &&
    ((a.userId.isSome && a.userId == b.userId)
      || (a.guest_name == b.guest_name && a.guest_email == b.guest_email)
      || (a.vehicle == b.vehicle))

/-- Storage-level INSERT: the database rejects the new row (raises
`IntegrityError`) when it conflicts with a distinct existing row. -/
def insertChecked (rows : List BookingRow) (n : BookingRow) :
    Except Unit (List BookingRow) :=
  if rows.any (fun r => r.id != n.id && conflicts r n) then .error ()
  else .ok (rows ++ [n])

/-- Storage-level UPDATE of the row with `n.id`: rejected when the new
values conflict with a distinct row, otherwise the row is replaced. -/
def updateChecked (rows : List BookingRow) (n : BookingRow) :
    Except Unit (List BookingRow) :=
  if rows.any (fun r => r.id != n.id && conflicts r n) then .error ()
  else .ok (rows.map (fun r => if r.id == n.id then n else r))

/-! ## Email service (`bookings/email_service.py`) -/

/-- What the rendering/transport stack does for one attempt:
`render_to_string` raises, `email.send()` raises, returns 0, or
delivers. -/
inductive SendOutcome
  | sent
  | sendZero
  | sendRaise (e : String)
  | renderRaise (e : String)
deriving DecidableEq, Repr

/-- The behavior of the external mail stack, per (template, recipient). -/
abbrev Gateway := String → String → SendOutcome

/-- What a dispatch call does from the caller's point of view: return a
boolean, or let an exception escape. -/
inductive SendResult
  | done (success : Bool)
  | raised (e : String)
deriving DecidableEq, Repr

/-- `settings.STAFF_NOTIFICATION_EMAIL` default. -/
def staffEmail : String := "bookings@richmonds.com.au"

/-- Build one `EmailLog` row, as `EmailService._log_email` does. -/
def mkLog (b : BookingRow) (ty recip subj : String) (succ : Bool)
    (err : String) : EmailLogRow :=
  { booking_id := b.id, email_type := ty, recipient_email := recip,
    subject := subj, sent_successfully := succ, error_message := err }

/-- The `if booking and email_type` guard around `_log_email` calls in
`_send_html_email`. -/
def logIfTracked (b : Option BookingRow) (ty recip subj : String)
    (succ : Bool) (err : String) (logs : List EmailLogRow) :
    List EmailLogRow :=
  match b with
  | some bk => if ty != "" then logs ++ [mkLog bk ty recip subj succ err] else logs
  | none => logs

/-- `EmailService._send_html_email`: render, then send; log the attempt
(when a booking and type are supplied); raise past the boundary only when
`fail_silently` is false, except that a send returning 0 is reported as a
plain `False`. -/
def sendHtmlEmail (gw : Gateway) (subj tmpl recip : String)
    (b : Option BookingRow) (ty : String) (failSilently : Bool)
    (logs : List EmailLogRow) : SendResult × List EmailLogRow :=
  match gw tmpl recip with
  | .renderRaise e =>
      let msg := "Template rendering failed: " ++ e
      let logs1 := logIfTracked b ty recip subj false msg logs
      if failSilently then (.done false, logs1) else (.raised msg, logs1)
  | .sent =>
      (.done true, logIfTracked b ty recip subj true "" logs)
  | .sendZero =>
      (.done false,
        logIfTracked b ty recip subj false
          "Email send returned 0 (failed to send)" logs)
  | .sendRaise e =>
      let msg := "Email sending failed: " ++ e
      let logs1 := logIfTracked b ty recip subj false msg logs
      if failSilently then (.done false, logs1) else (.raised msg, logs1)

/-- The address the customer-facing emails go to: the registered user's
address, else the guest address. -/
def customerEmail (b : BookingRow) : String :=
  match b.user with
  | some u => u.email
  | none => b.guest_email

/-- Display text standing in for the vehicle year/make/model used in
subject lines. -/
def vehicleLabel (v : Nat) : String := "Vehicle " ++ toString v

/-- `EmailService.send_booking_confirmation`. -/
def sendBookingConfirmation (gw : Gateway) (b : BookingRow)
    (failSilently : Bool) (logs : List EmailLogRow) :
    SendResult × List EmailLogRow :=
  sendHtmlEmail gw ("Test Drive Booking Confirmation - " ++ vehicleLabel b.vehicle)
    "booking_confirmation" (customerEmail b) (some b) "booking_confirmation"
    failSilently logs

/-- `EmailService.send_booking_status_update`: template chosen by the
booking's current status; statuses without a template skip sending and
report `True`. -/
def sendBookingStatusUpdate (gw : Gateway) (b : BookingRow)
    (failSilently : Bool) (logs : List EmailLogRow) :
    SendResult × List EmailLogRow :=
  if b.status == "confirmed" then
    sendHtmlEmail gw ("Test Drive Confirmed - " ++ vehicleLabel b.vehicle)
      "booking_confirmed" (customerEmail b) (some b) "booking_confirmed"
      failSilently logs
  else if b.status == "rescheduled" then
    sendHtmlEmail gw ("Test Drive Rescheduled - " ++ vehicleLabel b.vehicle)
      "booking_rescheduled" (customerEmail b) (some b) "booking_rescheduled"
      failSilently logs
  else if b.status == "canceled" then
    sendHtmlEmail gw ("Test Drive Canceled - " ++ vehicleLabel b.vehicle)
      "booking_canceled" (customerEmail b) (some b) "booking_canceled"
      failSilently logs
  else
    (.done true, logs)

/-- `EmailService.send_staff_notification` (name shortened). -/
def sendStaffAlert (gw : Gateway) (b : BookingRow) (failSilently : Bool)
    (logs : List EmailLogRow) : SendResult × List EmailLogRow :=
  sendHtmlEmail gw ("New Test Drive Booking - " ++ vehicleLabel b.vehicle)
    "staff_notification" staffEmail (some b) "staff_notification"
    failSilently logs

/-! ## Form validation (`bookings/forms.py`) -/

/-- Cleaned form data of `BookingForm` (the fields of `Meta.fields`). -/
structure FormData where
  vehicle : Nat
  guest_name : String
  guest_email : String
  guest_phone : String
  dob : DateYMD
  requested_date : Nat
  requested_time : Nat
deriving DecidableEq, Repr

/-- Python lexicographic `<` on `(month, day)` pairs. -/
def pairLt (a b : Nat × Nat) : Bool :=
  a.1 < b.1 || (a.1 == b.1 && a.2 < b.2)

/-- The age formula of `BookingForm.clean_dob`:
`today.year - dob.year - ((today.month, today.day) < (dob.month, dob.day))`. -/
def computedAge (today dob : DateYMD) : Int :=
  (today.year : Int) - (dob.year : Int) -
    (if pairLt (today.month, today.day) (dob.month, dob.day) then 1 else 0)

/-- `BookingForm.clean_dob` accepts the date of birth (no
`ValidationError`) exactly when the computed age is not below 25. -/
def cleanDobOk (today dob : DateYMD) : Bool :=
  !(computedAge today dob < 25)

/-! ## Booking views (`bookings/views.py`) -/

/-- The active queryset `Booking.objects.exclude(status='canceled')`. -/
def activeQs (rows : List BookingRow) : List BookingRow :=
  rows.filter (fun b => b.status != "canceled")

/-- Flash message for the requester double-booking pre-checks. -/
def msgOwnSlot : String := "You already have a booking at that date and time."

/-- Flash message for the vehicle double-booking pre-check. -/
def msgVehicleSlot : String := "This vehicle is already booked for that time."

/-- Flash message shown when the storage constraint fires at commit on the
create path. -/
def msgSlotTaken : String := "Sorry, that time just got taken. Please pick another slot."

/-- An existing row occupies the slot the form asks for. -/
def slotMatches (f : FormData) (b : BookingRow) : Bool :=
  b.requested_date == f.requested_date && b.requested_time == f.requested_time

/-- `CreateBookingView.form_valid` pre-check 1: the signed-in requester
already holds an active booking at that slot. -/
def createUserPre (user : Option UserRow) (f : FormData)
    (preRows : List BookingRow) : Bool :=
  user.isSome && (activeQs preRows).any
    (fun b => b.userId == user.map UserRow.id && slotMatches f b)

/-- `CreateBookingView.form_valid` pre-check 2: the guest identity already
holds an active booking at that slot. -/
def createGuestPre (f : FormData) (preRows : List BookingRow) : Bool :=
  f.guest_name != "" && f.guest_email != "" && (activeQs preRows).any
    (fun b => b.guest_name == f.guest_name && b.guest_email == f.guest_email
      && slotMatches f b)

/-- `CreateBookingView.form_valid` pre-check 3: the vehicle is already
booked at that slot. -/
def createVehiclePre (f : FormData) (preRows : List BookingRow) : Bool :=
  (activeQs preRows).any (fun b => b.vehicle == f.vehicle && slotMatches f b)

/-- Result of a booking-creation request. -/
inductive CreateOutcome
  | created
  | precheckErr (msg : String)
  | integrityCaught (msg : String)
deriving DecidableEq, Repr

/-- The row `CreateBookingView` saves: status `pending`, owner set when the
requester is signed in, audit timestamps set to now. -/
def newBookingRow (id : Nat) (user : Option UserRow) (f : FormData)
    (now : Nat) : BookingRow :=
  { id := id, vehicle := f.vehicle, user := user, guest_name := f.guest_name,
    guest_email := f.guest_email, guest_phone := f.guest_phone, dob := f.dob,
    requested_date := f.requested_date, requested_time := f.requested_time,
    status := "pending", staff_notes := "", created_at := now,
    updated_at := now }

/-- The audit-log list after the two creation sends (requester
acknowledgment then staff alert) ran inside the view's single try/except:
if the first send raises, the second is skipped. -/
def createLogs (gw : Gateway) (row : BookingRow) (logs : List EmailLogRow) :
    List EmailLogRow :=
  match sendBookingConfirmation gw row true logs with
  | (.raised _, l1) => l1
  | (.done _, l1) => (sendStaffAlert gw row true l1).2

/-- `CreateBookingView.form_valid`: three advisory pre-checks read
`preRows` (the table as seen at check time, possibly stale under
concurrency); the insert runs against the current state `s` and a caught
`IntegrityError` becomes the slot-taken message.  On success the two
creation emails are attempted inside one try/except (silent mode, so
neither raises). -/
def createOp (gw : Gateway) (now : Nat) (user : Option UserRow)
    (f : FormData) (preRows : List BookingRow) (s : DBState) :
    CreateOutcome × DBState :=
  if createUserPre user f preRows then
    (.precheckErr msgOwnSlot, s)
  else if createGuestPre f preRows then
    (.precheckErr msgOwnSlot, s)
  else if createVehiclePre f preRows then
    (.precheckErr msgVehicleSlot, s)
  else
    match insertChecked s.bookings (newBookingRow s.nextId user f now) with
    | .error _ => (.integrityCaught msgSlotTaken, s)
    | .ok rows =>
      (.created,
        { bookings := rows,
          emailLogs := createLogs gw (newBookingRow s.nextId user f now)
            s.emailLogs,
          nextId := s.nextId + 1 })

/-- Result of `CancelBookingView.post`. -/
inductive CancelOutcome
  | notFound
  | rejectedTerminal
  | dbError
  | canceledOk
deriving DecidableEq, Repr

/-- The row the owner cancellation saves: status `canceled`, `auto_now`
refreshing `updated_at`. -/
def cancelRow (b : BookingRow) (now : Nat) : BookingRow :=
  { b with status := "canceled", updated_at := now }

/-- `CancelBookingView.post`: look up the booking by pk among the
requester's own; refuse when it is already `canceled` or `completed`;
otherwise save status `canceled` and attempt the status email (errors
swallowed). -/
def cancelOp (gw : Gateway) (now : Nat) (uid : Nat) (pk : Nat)
    (s : DBState) : CancelOutcome × DBState :=
  match s.bookings.find? (fun r => r.id == pk && r.userId == some uid) with
  | none => (.notFound, s)
  | some b =>
    if b.status == "canceled" || b.status == "completed" then
      (.rejectedTerminal, s)
    else
      match updateChecked s.bookings (cancelRow b now) with
      | .error _ => (.dbError, s)
      | .ok rows =>
        (.canceledOk,
          { s with
            bookings := rows,
            emailLogs := (sendBookingStatusUpdate gw (cancelRow b now) true
              s.emailLogs).2 })

/-- Result of `RescheduleBookingView.form_valid`. -/
inductive ReschedOutcome
  | notFound
  | precheckErr (msg : String)
  | unhandledIntegrity
  | rescheduledOk
deriving DecidableEq, Repr

/-- `RescheduleBookingView` pre-check queryset: active rows other than the
booking being edited. -/
def reschedQs (pk : Nat) (preRows : List BookingRow) : List BookingRow :=
  (activeQs preRows).filter (fun r => r.id != pk)

/-- Reschedule pre-check 1: the requester already holds another active
booking at the new slot. -/
def reschedUserPre (uid pk : Nat) (f : FormData)
    (preRows : List BookingRow) : Bool :=
  (reschedQs pk preRows).any (fun r => r.userId == some uid && slotMatches f r)

/-- Reschedule pre-check 2: the guest identity already holds another
active booking at the new slot. -/
def reschedGuestPre (pk : Nat) (f : FormData)
    (preRows : List BookingRow) : Bool :=
  f.guest_name != "" && f.guest_email != "" && (reschedQs pk preRows).any
    (fun r => r.guest_name == f.guest_name && r.guest_email == f.guest_email
      && slotMatches f r)

/-- Reschedule pre-check 3: the vehicle is already booked at the new
slot by another active booking. -/
def reschedVehiclePre (pk : Nat) (f : FormData)
    (preRows : List BookingRow) : Bool :=
  (reschedQs pk preRows).any (fun r => r.vehicle == f.vehicle && slotMatches f r)

/-- The row the reschedule UPDATE writes: the form's fields over the
stored booking, status forced to `rescheduled`, `updated_at` refreshed. -/
def reschedRow (b : BookingRow) (f : FormData) (now : Nat) : BookingRow :=
  { b with
    vehicle := f.vehicle, guest_name := f.guest_name,
    guest_email := f.guest_email, guest_phone := f.guest_phone,
    dob := f.dob, requested_date := f.requested_date,
    requested_time := f.requested_time, status := "rescheduled",
    updated_at := now }

/-- `RescheduleBookingView.form_valid`: same three advisory pre-checks as
creation (excluding the edited pk), then the UPDATE forcing status
`rescheduled`.  There is no `IntegrityError` handler on this path, so a
constraint violation at commit escapes unhandled. -/
def rescheduleOp (gw : Gateway) (now : Nat) (uid : Nat) (pk : Nat)
    (f : FormData) (preRows : List BookingRow) (s : DBState) :
    ReschedOutcome × DBState :=
  match s.bookings.find? (fun r => r.id == pk && r.userId == some uid) with
  | none => (.notFound, s)
  | some b =>
    if reschedUserPre uid pk f preRows then
      (.precheckErr msgOwnSlot, s)
    else if reschedGuestPre pk f preRows then
      (.precheckErr msgOwnSlot, s)
    else if reschedVehiclePre pk f preRows then
      (.precheckErr msgVehicleSlot, s)
    else
      match updateChecked s.bookings (reschedRow b f now) with
      | .error _ => (.unhandledIntegrity, s)
      | .ok rows =>
        (.rescheduledOk,
          { s with
            bookings := rows,
            emailLogs := (sendBookingStatusUpdate gw (reschedRow b f now) true
              s.emailLogs).2 })

/-! ## Staff admin operations (`bookings/admin.py`) -/

/-- Result of `BookingAdmin.save_model`. -/
inductive AdminSaveOutcome
  | saved
  | integrityError
deriving DecidableEq, Repr

/-- The row `save_model` writes for the staff edit `n`: `updated_at`
refreshed by `auto_now`, `created_at` as stored (the loaded value is
written back unchanged on update). -/
def adminRow (n : BookingRow) (old : Option BookingRow) (now : Nat) :
    BookingRow :=
  { n with
    created_at := (old.map BookingRow.created_at).getD n.created_at,
    updated_at := now }

/-- `BookingAdmin.save_model` on an existing booking (`change=True`): read
the old status, save the edited row (refreshing `updated_at`, keeping the
stored `created_at`), then attempt one status email exactly when the
status changed to `confirmed`, `rescheduled` or `canceled`. -/
def adminSaveOp (gw : Gateway) (now : Nat) (n : BookingRow) (s : DBState) :
    AdminSaveOutcome × DBState :=
  match updateChecked s.bookings
      (adminRow n (s.bookings.find? (fun r => r.id == n.id)) now) with
  | .error _ => (.integrityError, s)
  | .ok rows =>
    match (s.bookings.find? (fun r => r.id == n.id)).map BookingRow.status with
    | some oldStatus =>
      if oldStatus != n.status &&
          (n.status == "confirmed" || n.status == "rescheduled"
            || n.status == "canceled") then
        (.saved,
          { s with
            bookings := rows,
            emailLogs := (sendBookingStatusUpdate gw
              (adminRow n (s.bookings.find? (fun r => r.id == n.id)) now) true
              s.emailLogs).2 })
      else (.saved, { s with bookings := rows })
    | none => (.saved, { s with bookings := rows })

/-- The loop body shared by `BookingAdmin.mark_confirmed` and
`BookingAdmin.mark_canceled`: for each selected booking, save the target
status, then attempt a status email when the status actually changed.  A
save raising `IntegrityError` aborts the bulk action mid-loop (changes
already made are kept); email errors are swallowed and the loop
continues. -/
def markBulk (gw : Gateway) (now : Nat) (target : String) :
    List Nat → DBState → DBState × Bool
  | [], s => (s, true)
  | pk :: rest, s =>
    match s.bookings.find? (fun r => r.id == pk) with
    | none => markBulk gw now target rest s
    | some o =>
      match updateChecked s.bookings
          { o with status := target, updated_at := now } with
      | .error _ => (s, false)
      | .ok rows =>
        markBulk gw now target rest
          { s with
            bookings := rows,
            emailLogs := if o.status != target
              then (sendBookingStatusUpdate gw
                { o with status := target, updated_at := now } true
                s.emailLogs).2
              else s.emailLogs }

/-- Decidable check that the final table satisfies the three partial
unique indexes pairwise. -/
def consistentB (rows : List BookingRow) : Bool :=
  rows.all (fun a => rows.all (fun b => a.id == b.id || !(conflicts a b)))

/-- The row image of `UPDATE bookings SET status='completed' WHERE id IN pks`:
only the status column is written; `auto_now` does not fire. -/
def completedRows (pks : List Nat) (rows : List BookingRow) : List BookingRow :=
  rows.map
    (fun r => if pks.contains r.id then { r with status := "completed" } else r)

/-- `BookingAdmin.mark_completed`: a single `queryset.update(status='completed')`
SQL statement.  It bypasses `Model.save`, so `auto_now` does not fire and
`updated_at` is left untouched; the statement commits atomically or is
rejected whole by the constraints. -/
def markCompletedOp (pks : List Nat) (s : DBState) : DBState × Bool :=
  if consistentB (completedRows pks s.bookings) then
    ({ s with bookings := completedRows pks s.bookings }, true)
  else (s, false)

/-! ## Operation sequences -/

/-- One request handled by the booking core.  The `preRows` argument of the
create/reschedule constructors is the table snapshot their advisory
pre-check read, which under concurrency may differ from the state the
commit runs against. -/
inductive Step : DBState → DBState → Prop
  | create (gw : Gateway) (now : Nat) (user : Option UserRow) (f : FormData)
      (preRows : List BookingRow) (s : DBState) :
      Step s (createOp gw now user f preRows s).2
  | cancel (gw : Gateway) (now uid pk : Nat) (s : DBState) :
      Step s (cancelOp gw now uid pk s).2
  | reschedule (gw : Gateway) (now uid pk : Nat) (f : FormData)
      (preRows : List BookingRow) (s : DBState) :
      Step s (rescheduleOp gw now uid pk f preRows s).2
  | adminSave (gw : Gateway) (now : Nat) (n : BookingRow) (s : DBState) :
      Step s (adminSaveOp gw now n s).2
  | bulkConfirmed (gw : Gateway) (now : Nat) (pks : List Nat) (s : DBState) :
      Step s (markBulk gw now "confirmed" pks s).1
  | bulkCanceled (gw : Gateway) (now : Nat) (pks : List Nat) (s : DBState) :
      Step s (markBulk gw now "canceled" pks s).1
  | bulkCompleted (pks : List Nat) (s : DBState) :
      Step s (markCompletedOp pks s).1

/-- States reachable from the empty database by any sequence of
create/transition operations. -/
inductive Reachable : DBState → Prop
  | init : Reachable dbInit
  | step {s t : DBState} : Reachable s → Step s t → Reachable t

/-! ## Derived observations used by the theorems -/

/-- Whether one gateway outcome counts as a successful delivery. -/
def outcomeSuccess : SendOutcome → Bool
  | .sent => true
  | _ => false

/-- The error detail `_send_html_email` records for each outcome: rendering
failures and transport failures carry distinct prefixes. -/
def errMsgOf : SendOutcome → String
  | .sent => ""
  | .sendZero => "Email send returned 0 (failed to send)"
  | .sendRaise e => "Email sending failed: " ++ e
  | .renderRaise e => "Template rendering failed: " ++ e

/-- The record the requester acknowledgment attempt leaves for a gateway
with the given behavior. -/
def ackRecord (gw : Gateway) (row : BookingRow) : EmailLogRow :=
  mkLog row "booking_confirmation" (customerEmail row)
    ("Test Drive Booking Confirmation - " ++ vehicleLabel row.vehicle)
    (outcomeSuccess (gw "booking_confirmation" (customerEmail row)))
    (errMsgOf (gw "booking_confirmation" (customerEmail row)))

/-- The record the staff alert attempt leaves for a gateway with the given
behavior. -/
def staffRecord (gw : Gateway) (row : BookingRow) : EmailLogRow :=
  mkLog row "staff_notification" staffEmail
    ("New Test Drive Booking - " ++ vehicleLabel row.vehicle)
    (outcomeSuccess (gw "staff_notification" staffEmail))
    (errMsgOf (gw "staff_notification" staffEmail))

/-- The database rows were only edited in place: every row of the new
table keeps the identity and the creation timestamp of a row of the old
table. -/
def FramePreserved (old new : List BookingRow) : Prop :=
  ∀ r2 ∈ new, ∃ r1 ∈ old, r2.id = r1.id ∧ r2.created_at = r1.created_at

/-! ## Concrete fixtures for witnesses and counterexamples -/

/-- A gateway that always delivers. -/
def gwSent : Gateway := fun _ _ => .sent

/-- A gateway whose transport always raises. -/
def gwRaise : Gateway := fun _ _ => .sendRaise "SMTP connection refused"

/-- A sample registered user. -/
def sampleUser : UserRow := { id := 7, email := "u7@example.com" }

/-- A sample cleaned booking form. -/
def sampleForm : FormData :=
  { vehicle := 1, guest_name := "Jane Smith", guest_email := "jane@example.com",
    guest_phone := "0400000000", dob := ⟨1990, 1, 1⟩,
    requested_date := 20250815, requested_time := 1030 }

/-- A completed booking owned by the sample user, as stored. -/
def doneBooking : BookingRow :=
  { newBookingRow 1 (some sampleUser) sampleForm 0 with status := "completed" }

/-- A state holding only `doneBooking`. -/
def doneState : DBState := { bookings := [doneBooking], emailLogs := [], nextId := 2 }

/-- A pending booking owned by the sample user. -/
def pendingBooking : BookingRow := newBookingRow 1 (some sampleUser) sampleForm 0

/-- A state holding only `pendingBooking`. -/
def pendingState : DBState :=
  { bookings := [pendingBooking], emailLogs := [], nextId := 2 }

/-- A guest booking occupying vehicle 1 at the 11:00 slot. -/
def otherSlotForm : FormData :=
  { sampleForm with
    guest_name := "Alex Roe", guest_email := "alex@example.com",
    requested_time := 1100 }

def otherSlotBooking : BookingRow :=
  { newBookingRow 2 none otherSlotForm 0 with vehicle := 1 }

/-- State for the reschedule race: the user's own booking at 10:30 plus a
guest booking holding vehicle 1 at 11:00. -/
def raceState : DBState :=
  { bookings := [pendingBooking, otherSlotBooking], emailLogs := [], nextId := 3 }

/-- The staff edit moving `doneBooking` to `confirmed`, as submitted. -/
def confirmSave : BookingRow := { doneBooking with status := "confirmed" }

/-- The state after the sample user cancels `pendingBooking`. -/
def canceledState : DBState := (cancelOp gwSent 2 7 1 pendingState).2

/-- No two distinct (by id) rows of the table violate one of the three
partial unique constraints. -/
def PairOk (rows : List BookingRow) : Prop :=
  ∀ a ∈ rows, ∀ b ∈ rows, a.id ≠ b.id → conflicts a b = false

/-- Every stored id is below the next surrogate id the store hands out. -/
def IdsBelow (rows : List BookingRow) (k : Nat) : Prop :=
  ∀ a ∈ rows, a.id < k

/-- The storage invariant: constraint-consistent rows with fresh ids. -/
def Inv (s : DBState) : Prop :=
  PairOk s.bookings ∧ IdsBelow s.bookings s.nextId

/-- The reachable state after the sample user books the 10:30 slot. -/
def reachedState1 : DBState :=
  (createOp gwSent 0 (some sampleUser) sampleForm [] dbInit).2

/-- The reachable state after a guest then books the 11:00 slot. -/
def reachedState2 : DBState :=
  (createOp gwSent 1 none otherSlotForm [] reachedState1).2

/-- The first booking row of `reachedState2`. -/
def rowA : BookingRow := newBookingRow 0 (some sampleUser) sampleForm 0

/-- The second booking row of `reachedState2`. -/
def rowB : BookingRow := newBookingRow 1 none otherSlotForm 1

/-! ## Helper lemmas about the email service -/

theorem sendHtmlEmail_tracked (gw : Gateway) (subj tmpl recip : String)
    (b : BookingRow) (ty : String) (failSilently : Bool)
    (logs : List EmailLogRow) (hty : ty ≠ "") :
    (sendHtmlEmail gw subj tmpl recip (some b) ty failSilently logs).2 =
      logs ++ [mkLog b ty recip subj (outcomeSuccess (gw tmpl recip))
        (errMsgOf (gw tmpl recip))] := by
  unfold sendHtmlEmail logIfTracked
  cases h : gw tmpl recip <;>
    simp [h, outcomeSuccess, errMsgOf, bne_iff_ne, hty] <;>
    cases failSilently <;> simp

theorem sendHtmlEmail_silent (gw : Gateway) (subj tmpl recip : String)
    (b : BookingRow) (ty : String) (logs : List EmailLogRow) :
    (sendHtmlEmail gw subj tmpl recip (some b) ty true logs).1 =
      .done (outcomeSuccess (gw tmpl recip)) := by
  unfold sendHtmlEmail
  cases h : gw tmpl recip <;> simp [h, outcomeSuccess]

theorem pairLt_iff (a b : Nat × Nat) :
    pairLt a b = true ↔ a.1 < b.1 ∨ (a.1 = b.1 ∧ a.2 < b.2) := by
  simp [pairLt]

/-- C7: every send attempt of the dispatch policy persists exactly one
NotificationRecord whose success flag matches the gateway outcome; the
recorded error detail separates rendering failures ("Template rendering
failed: …") from transport failures ("Email sending failed: …" / the
zero-return message); and in silent mode the attempt is reported as a
boolean rather than raised. -/
theorem C7_dispatch_records_every_attempt (gw : Gateway)
    (subj tmpl recip : String) (b : BookingRow) (ty : String)
    (failSilently : Bool) (logs : List EmailLogRow) (hty : ty ≠ "") :
    ((sendHtmlEmail gw subj tmpl recip (some b) ty failSilently logs).2 =
        logs ++ [mkLog b ty recip subj (outcomeSuccess (gw tmpl recip))
          (errMsgOf (gw tmpl recip))]) ∧
    (failSilently = true →
      (sendHtmlEmail gw subj tmpl recip (some b) ty failSilently logs).1 =
        .done (outcomeSuccess (gw tmpl recip))) ∧
    (∀ e, errMsgOf (.renderRaise e) = "Template rendering failed: " ++ e) ∧
    (∀ e, errMsgOf (.sendRaise e) = "Email sending failed: " ++ e) ∧
    errMsgOf .sendZero = "Email send returned 0 (failed to send)" := by
  refine ⟨sendHtmlEmail_tracked gw subj tmpl recip b ty failSilently logs hty,
    ?_, fun e => rfl, fun e => rfl, rfl⟩
  rintro rfl
  exact sendHtmlEmail_silent gw subj tmpl recip b ty logs

theorem C7_witness :
    (sendHtmlEmail gwRaise "subject" "tpl" "to@example.com"
        (some pendingBooking) "booking_confirmation" true []).2 =
      [] ++ [mkLog pendingBooking "booking_confirmation" "to@example.com"
        "subject" (outcomeSuccess (gwRaise "tpl" "to@example.com"))
        (errMsgOf (gwRaise "tpl" "to@example.com"))] :=
  (C7_dispatch_records_every_attempt gwRaise "subject" "tpl" "to@example.com"
    pendingBooking "booking_confirmation" true [] (by decide)).1

/-- C10: for a booking whose status is `pending` or `completed`,
`send_booking_status_update` sends nothing, creates no record, and
reports success (`True`) to the caller. -/
theorem C10_status_update_noop (gw : Gateway) (b : BookingRow)
    (failSilently : Bool) (logs : List EmailLogRow)
    (h : b.status = "pending" ∨ b.status = "completed") :
    sendBookingStatusUpdate gw b failSilently logs = (.done true, logs) := by
  rcases h with h | h <;> simp [sendBookingStatusUpdate, h]

theorem C10_witness :
    sendBookingStatusUpdate gwRaise pendingBooking true [] = (.done true, []) :=
  C10_status_update_noop gwRaise pendingBooking true [] (Or.inl rfl)

/-- C8: a date of birth whose computed age is below 25 at the submission
date is rejected by `clean_dob`, and the field is accepted exactly when
the 25th birthday falls on or before the submission date (so a computed
age of exactly 25 is accepted). -/
theorem C8_age_gate (today dob : DateYMD) :
    (computedAge today dob < 25 → cleanDobOk today dob = false) ∧
    (cleanDobOk today dob = true ↔
      (dob.year + 25 < today.year ∨
        (dob.year + 25 = today.year ∧
          (dob.month < today.month ∨
            (dob.month = today.month ∧ dob.day ≤ today.day))))) := by
  constructor
  · intro h
    simp [cleanDobOk, h]
  · have hp := pairLt_iff (today.month, today.day) (dob.month, dob.day)
    unfold cleanDobOk computedAge
    cases h : pairLt (today.month, today.day) (dob.month, dob.day) <;>
      rw [h] at hp <;> simp at hp ⊢ <;> omega

theorem C8_witness :
    (computedAge ⟨2025, 10, 12⟩ ⟨2001, 10, 13⟩ < 25 ∧
      cleanDobOk ⟨2025, 10, 12⟩ ⟨2001, 10, 13⟩ = false) ∧
    cleanDobOk ⟨2025, 10, 12⟩ ⟨2000, 10, 12⟩ = true :=
  ⟨⟨by decide, (C8_age_gate ⟨2025, 10, 12⟩ ⟨2001, 10, 13⟩).1 (by decide)⟩,
    (C8_age_gate ⟨2025, 10, 12⟩ ⟨2000, 10, 12⟩).2.mpr (by decide)⟩

/-- C2 counterexample: the staff bulk action `mark_confirmed`, applied to
a booking already in the terminal status `completed`, succeeds and moves
it to `confirmed` — no error, booking changed — contradicting the claim
that no transition leaves `completed`. -/
theorem C2_counterexample :
    doneBooking.status = "completed" ∧
    (markBulk gwSent 5 "confirmed" [1] doneState).2 = true ∧
    (markBulk gwSent 5 "confirmed" [1] doneState).1.bookings.map
      BookingRow.status = ["confirmed"] := by
  refine ⟨rfl, ?_, ?_⟩ <;> decide

/-- C3 counterexample: on the reschedule path a conflict detected only by
the storage constraint at commit (the pre-check snapshot predates the
conflicting row) escapes as an unhandled `IntegrityError` instead of
being caught and surfaced as a slot-taken message. -/
theorem C3_counterexample :
    rescheduleOp gwSent 9 7 1 otherSlotForm [pendingBooking] raceState
      = (.unhandledIntegrity, raceState) := by decide

/-- C9 counterexample: the staff bulk action `mark_completed` mutates a
booking's status through `queryset.update`, which does not refresh the
last-updated timestamp. -/
theorem C9_counterexample :
    pendingState.bookings.map BookingRow.status = ["pending"] ∧
    (markCompletedOp [1] pendingState).1.bookings.map BookingRow.status
      = ["completed"] ∧
    (markCompletedOp [1] pendingState).1.bookings.map BookingRow.updated_at
      = pendingState.bookings.map BookingRow.updated_at := by
  refine ⟨rfl, ?_, ?_⟩ <;> decide

/-- C2 as amended: the terminal-state guard exists only on the
owner-cancellation path — `CancelBookingView` rejects a booking already
`canceled` or `completed` with a user-visible error and leaves the state
unchanged.  (Staff individual saves, staff bulk actions and the owner
reschedule path carry no such guard and can move a terminal booking, as
the counterexample shows.) -/
theorem C2_amended_cancel_guard (gw : Gateway) (now uid pk : Nat)
    (s : DBState) (b : BookingRow)
    (hfind : s.bookings.find? (fun r => r.id == pk && r.userId == some uid)
      = some b)
    (hterm : b.status = "canceled" ∨ b.status = "completed") :
    cancelOp gw now uid pk s = (.rejectedTerminal, s) := by
  unfold cancelOp
  rw [hfind]
  rcases hterm with h | h <;> simp [h]

theorem C2_amended_witness :
    cancelOp gwSent 9 7 1 doneState = (.rejectedTerminal, doneState) :=
  C2_amended_cancel_guard gwSent 9 7 1 doneState doneBooking (by decide)
    (Or.inr rfl)

/-- On a status of the notifying kind, `send_booking_status_update`
appends exactly one record addressed to the requester. -/
theorem statusUpdate_appends (gw : Gateway) (b : BookingRow)
    (failSilently : Bool) (logs : List EmailLogRow)
    (h : b.status = "confirmed" ∨ b.status = "rescheduled"
      ∨ b.status = "canceled") :
    ∃ rec : EmailLogRow,
      (sendBookingStatusUpdate gw b failSilently logs).2 = logs ++ [rec] ∧
      rec.recipient_email = customerEmail b ∧ rec.booking_id = b.id := by
  rcases h with h | h | h
  all_goals
    simp only [sendBookingStatusUpdate, h]
    first
      | rw [if_pos (by decide)]
      | rw [if_neg (by decide), if_pos (by decide)]
      | rw [if_neg (by decide), if_neg (by decide), if_pos (by decide)]
    exact ⟨_, sendHtmlEmail_tracked gw _ _ _ b _ failSilently logs (by decide),
      rfl, rfl⟩

theorem sendBookingConfirmation_silent (gw : Gateway) (row : BookingRow)
    (logs : List EmailLogRow) :
    sendBookingConfirmation gw row true logs =
      (.done (outcomeSuccess (gw "booking_confirmation" (customerEmail row))),
        logs ++ [ackRecord gw row]) := by
  rw [Prod.ext_iff]
  exact ⟨sendHtmlEmail_silent gw _ "booking_confirmation" (customerEmail row)
      row "booking_confirmation" logs,
    sendHtmlEmail_tracked gw _ "booking_confirmation" (customerEmail row) row
      "booking_confirmation" true logs (by decide)⟩

theorem sendStaffAlert_silent (gw : Gateway) (row : BookingRow)
    (logs : List EmailLogRow) :
    sendStaffAlert gw row true logs =
      (.done (outcomeSuccess (gw "staff_notification" staffEmail)),
        logs ++ [staffRecord gw row]) := by
  rw [Prod.ext_iff]
  exact ⟨sendHtmlEmail_silent gw _ "staff_notification" staffEmail row
      "staff_notification" logs,
    sendHtmlEmail_tracked gw _ "staff_notification" staffEmail row
      "staff_notification" true logs (by decide)⟩

theorem createLogs_eq (gw : Gateway) (row : BookingRow)
    (logs : List EmailLogRow) :
    createLogs gw row logs = logs ++ [ackRecord gw row, staffRecord gw row] := by
  simp only [createLogs, sendBookingConfirmation_silent, sendStaffAlert_silent,
    List.append_assoc, List.singleton_append, List.cons_append, List.nil_append]

/-- C6: whenever the pre-checks and the storage constraint let a creation
through, the operation succeeds for EVERY gateway behavior (including
always-raising transports): the booking row is committed and stays
committed, and exactly two notifications are attempted — the requester
acknowledgment and the staff alert — each leaving a NotificationRecord
whose success flag is false exactly when that attempt failed. -/
theorem C6_creation_nonblocking (gw : Gateway) (now : Nat)
    (user : Option UserRow) (f : FormData) (preRows : List BookingRow)
    (s : DBState)
    (h1 : createUserPre user f preRows = false)
    (h2 : createGuestPre f preRows = false)
    (h3 : createVehiclePre f preRows = false)
    (h4 : s.bookings.any (fun r =>
        r.id != (newBookingRow s.nextId user f now).id &&
        conflicts r (newBookingRow s.nextId user f now)) = false) :
    createOp gw now user f preRows s =
      (.created,
        { bookings := s.bookings ++ [newBookingRow s.nextId user f now],
          emailLogs := s.emailLogs ++
            [ackRecord gw (newBookingRow s.nextId user f now),
             staffRecord gw (newBookingRow s.nextId user f now)],
          nextId := s.nextId + 1 }) := by
  unfold createOp insertChecked
  simp only [h1, h2, h3, h4, Bool.false_eq_true, if_false, createLogs_eq]

theorem C6_witness :
    createOp gwRaise 0 (some sampleUser) sampleForm [] dbInit =
      (.created,
        { bookings := [newBookingRow 0 (some sampleUser) sampleForm 0],
          emailLogs :=
            [ackRecord gwRaise (newBookingRow 0 (some sampleUser) sampleForm 0),
             staffRecord gwRaise (newBookingRow 0 (some sampleUser) sampleForm 0)],
          nextId := 1 }) :=
  C6_creation_nonblocking gwRaise 0 (some sampleUser) sampleForm [] dbInit
    (by decide) (by decide) (by decide) (by decide)

/-- C5: on staff-initiated status changes, exactly one requester-facing
notification is attempted (leaving exactly one record) iff the new status
differs from the old one and is `confirmed`, `rescheduled` or `canceled`:
through the individual admin save, through the bulk confirm/cancel
actions, and never through the bulk complete action or a no-op re-set. -/
theorem C5_staff_notifications (gw : Gateway) (now : Nat) (s : DBState) :
    (∀ n o, s.bookings.find? (fun r => r.id == n.id) = some o →
      (adminSaveOp gw now n s).1 = .saved →
      (adminSaveOp gw now n s).2.emailLogs.length =
        s.emailLogs.length +
          (if o.status ≠ n.status ∧ (n.status = "confirmed"
              ∨ n.status = "rescheduled" ∨ n.status = "canceled")
            then 1 else 0)) ∧
    (∀ target pk o, (target = "confirmed" ∨ target = "canceled") →
      s.bookings.find? (fun r => r.id == pk) = some o →
      (markBulk gw now target [pk] s).2 = true →
      (markBulk gw now target [pk] s).1.emailLogs.length =
        s.emailLogs.length + (if o.status ≠ target then 1 else 0)) ∧
    (∀ pks, (markCompletedOp pks s).1.emailLogs = s.emailLogs) := by
  refine ⟨?_, ?_, ?_⟩
  · intro n o hfind hsaved
    unfold adminSaveOp adminRow at hsaved ⊢
    simp only [hfind, Option.map_some', Option.getD_some] at hsaved ⊢
    rcases hupd : updateChecked s.bookings
        { n with created_at := o.created_at, updated_at := now }
      with _ | rows
    · simp [hupd] at hsaved
    · simp only [hupd] at hsaved ⊢
      split
      next hcond =>
        simp only [Bool.and_eq_true, Bool.or_eq_true, bne_iff_ne,
          beq_iff_eq] at hcond
        obtain ⟨rec, hrec, -, -⟩ := statusUpdate_appends gw
          { n with created_at := o.created_at, updated_at := now } true
          s.emailLogs (or_assoc.mp hcond.2)
        rw [if_pos ⟨hcond.1, or_assoc.mp hcond.2⟩]
        simp [hrec]
      next hcond =>
        rw [if_neg]
        · simp
        · intro hk
          exact hcond (by
            simp only [Bool.and_eq_true, Bool.or_eq_true, bne_iff_ne,
              beq_iff_eq]
            exact ⟨hk.1, or_assoc.mpr hk.2⟩)
  · intro target pk o htarget hfind h2
    simp only [markBulk, hfind] at h2 ⊢
    rcases hupd : updateChecked s.bookings
        { o with status := target, updated_at := now } with _ | rows
    · simp [hupd] at h2
    · simp only [hupd] at h2 ⊢
      split
      next hch =>
        obtain ⟨rec, hrec, -, -⟩ := statusUpdate_appends gw
          { o with status := target, updated_at := now } true
          s.emailLogs (by rcases htarget with h | h <;> simp [h])
        rw [if_pos (bne_iff_ne.mp hch)]
        simp [markBulk, hrec]
      next hch =>
        rw [if_neg (fun hne => hch (bne_iff_ne.mpr hne))]
        simp [markBulk]
  · intro pks
    unfold markCompletedOp
    split <;> rfl

theorem C5_witness :
    (adminSaveOp gwSent 5 confirmSave doneState).2.emailLogs.length =
      doneState.emailLogs.length +
        (if doneBooking.status ≠ confirmSave.status ∧
            (confirmSave.status = "confirmed"
              ∨ confirmSave.status = "rescheduled"
              ∨ confirmSave.status = "canceled")
          then 1 else 0) :=
  (C5_staff_notifications gwSent 5 doneState).1 confirmSave doneBooking
    (by decide) (by decide)

/-- C3 as amended: conflicting create/reschedule attempts caught by the
advisory pre-check are rejected before persistence with the requester
double-booking message checked before the vehicle double-booking message,
on both paths; a conflict surfacing only as a storage-constraint violation
at commit is caught and turned into the user-facing slot-taken message on
the CREATE path only — on the reschedule path it escapes as an unhandled
error. -/
theorem C3_amended_conflict_paths (gw : Gateway) (now uid pk : Nat)
    (user : Option UserRow) (f : FormData) (preRows : List BookingRow)
    (s : DBState) :
    (createUserPre user f preRows = true →
      createOp gw now user f preRows s = (.precheckErr msgOwnSlot, s)) ∧
    (createUserPre user f preRows = false → createGuestPre f preRows = true →
      createOp gw now user f preRows s = (.precheckErr msgOwnSlot, s)) ∧
    (createUserPre user f preRows = false → createGuestPre f preRows = false →
      createVehiclePre f preRows = true →
      createOp gw now user f preRows s = (.precheckErr msgVehicleSlot, s)) ∧
    (createUserPre user f preRows = false → createGuestPre f preRows = false →
      createVehiclePre f preRows = false →
      insertChecked s.bookings (newBookingRow s.nextId user f now) = .error () →
      createOp gw now user f preRows s = (.integrityCaught msgSlotTaken, s)) ∧
    (∀ b, s.bookings.find? (fun r => r.id == pk && r.userId == some uid)
        = some b →
      (reschedUserPre uid pk f preRows = true →
        rescheduleOp gw now uid pk f preRows s = (.precheckErr msgOwnSlot, s)) ∧
      (reschedUserPre uid pk f preRows = false →
        reschedGuestPre pk f preRows = true →
        rescheduleOp gw now uid pk f preRows s = (.precheckErr msgOwnSlot, s)) ∧
      (reschedUserPre uid pk f preRows = false →
        reschedGuestPre pk f preRows = false →
        reschedVehiclePre pk f preRows = true →
        rescheduleOp gw now uid pk f preRows s
          = (.precheckErr msgVehicleSlot, s)) ∧
      (reschedUserPre uid pk f preRows = false →
        reschedGuestPre pk f preRows = false →
        reschedVehiclePre pk f preRows = false →
        updateChecked s.bookings (reschedRow b f now) = .error () →
        rescheduleOp gw now uid pk f preRows s = (.unhandledIntegrity, s))) := by
  refine ⟨?_, ?_, ?_, ?_, ?_⟩
  · intro h1
    unfold createOp
    simp [h1]
  · intro h1 h2
    unfold createOp
    simp [h1, h2]
  · intro h1 h2 h3
    unfold createOp
    simp [h1, h2, h3]
  · intro h1 h2 h3 h4
    unfold createOp
    simp [h1, h2, h3, h4]
  · intro b hfind
    refine ⟨?_, ?_, ?_, ?_⟩
    · intro h1
      unfold rescheduleOp
      rw [hfind]
      simp [h1]
    · intro h1 h2
      unfold rescheduleOp
      rw [hfind]
      simp [h1, h2]
    · intro h1 h2 h3
      unfold rescheduleOp
      rw [hfind]
      simp [h1, h2, h3]
    · intro h1 h2 h3 h4
      unfold rescheduleOp
      rw [hfind]
      simp [h1, h2, h3, h4]

theorem C3_amended_witness :
    (createOp gwSent 1 (some sampleUser) sampleForm [pendingBooking]
        pendingState = (.precheckErr msgOwnSlot, pendingState)) ∧
    (rescheduleOp gwSent 9 7 1 otherSlotForm [pendingBooking] raceState
        = (.unhandledIntegrity, raceState)) :=
  ⟨(C3_amended_conflict_paths gwSent 1 7 1 (some sampleUser) sampleForm
      [pendingBooking] pendingState).1 (by decide),
   ((C3_amended_conflict_paths gwSent 9 7 1 none otherSlotForm
      [pendingBooking] raceState).2.2.2.2 pendingBooking (by decide)).2.2.2
      (by decide) (by decide) (by decide) rfl⟩


theorem framePreserved_refl (rows : List BookingRow) :
    FramePreserved rows rows :=
  fun r hr => ⟨r, hr, rfl, rfl⟩

theorem framePreserved_trans {a b c : List BookingRow}
    (h1 : FramePreserved a b) (h2 : FramePreserved b c) :
    FramePreserved a c := by
  intro r2 hr2
  obtain ⟨r1, hr1, hid1, hc1⟩ := h2 r2 hr2
  obtain ⟨r0, hr0, hid0, hc0⟩ := h1 r1 hr1
  exact ⟨r0, hr0, hid1.trans hid0, hc1.trans hc0⟩

theorem updateChecked_ok_eq {rows rows2 : List BookingRow} {n : BookingRow}
    (h : updateChecked rows n = .ok rows2) :
    rows2 = rows.map (fun r => if r.id == n.id then n else r) := by
  unfold updateChecked at h
  split at h
  · exact absurd h (by simp)
  · injection h with h
    exact h.symm

theorem updateChecked_ok_guard {rows rows2 : List BookingRow} {n : BookingRow}
    (h : updateChecked rows n = .ok rows2) :
    (rows.any (fun r => r.id != n.id && conflicts r n)) = false := by
  unfold updateChecked at h
  split at h
  next hc => exact absurd h (by simp)
  next hc =>
    cases hg : rows.any (fun r => r.id != n.id && conflicts r n)
    · rfl
    · exact absurd hg hc

theorem insertChecked_ok_eq {rows rows2 : List BookingRow} {n : BookingRow}
    (h : insertChecked rows n = .ok rows2) :
    rows2 = rows ++ [n] := by
  unfold insertChecked at h
  split at h
  · exact absurd h (by simp)
  · injection h with h
    exact h.symm

theorem insertChecked_ok_guard {rows rows2 : List BookingRow} {n : BookingRow}
    (h : insertChecked rows n = .ok rows2) :
    (rows.any (fun r => r.id != n.id && conflicts r n)) = false := by
  unfold insertChecked at h
  split at h
  next hc => exact absurd h (by simp)
  next hc =>
    cases hg : rows.any (fun r => r.id != n.id && conflicts r n)
    · rfl
    · exact absurd hg hc

theorem updateChecked_frame {rows rows2 : List BookingRow} {n : BookingRow}
    (h : updateChecked rows n = .ok rows2)
    (hex : ∃ r0 ∈ rows, n.id = r0.id ∧ n.created_at = r0.created_at) :
    FramePreserved rows rows2 := by
  obtain ⟨r0, hr0, hid0, hc0⟩ := hex
  intro r2 hr2
  rw [updateChecked_ok_eq h] at hr2
  obtain ⟨r, hr, heq⟩ := List.mem_map.mp hr2
  by_cases hid : (r.id == n.id) = true
  · rw [if_pos hid] at heq
    subst heq
    exact ⟨r0, hr0, hid0, hc0⟩
  · rw [if_neg hid] at heq
    subst heq
    exact ⟨r, hr, rfl, rfl⟩

theorem updateChecked_frame_none {rows rows2 : List BookingRow}
    {n : BookingRow} (h : updateChecked rows n = .ok rows2)
    (hnone : ∀ r ∈ rows, ¬ (r.id == n.id) = true) :
    FramePreserved rows rows2 := by
  intro r2 hr2
  rw [updateChecked_ok_eq h] at hr2
  obtain ⟨r, hr, heq⟩ := List.mem_map.mp hr2
  rw [if_neg (hnone r hr)] at heq
  subst heq
  exact ⟨r, hr, rfl, rfl⟩


theorem markBulk_frame (gw : Gateway) (now : Nat) (target : String) :
    ∀ (pks : List Nat) (s : DBState),
    FramePreserved s.bookings (markBulk gw now target pks s).1.bookings := by
  intro pks
  induction pks with
  | nil => exact fun s => framePreserved_refl s.bookings
  | cons pk rest ih =>
    intro s
    simp only [markBulk]
    rcases hfind : s.bookings.find? (fun r => r.id == pk) with _ | o
    · rw [hfind]
      exact ih s
    · rw [hfind]
      dsimp only
      rcases hupd : updateChecked s.bookings
          { o with status := target, updated_at := now } with _ | rows
      · exact framePreserved_refl s.bookings
      · refine framePreserved_trans (updateChecked_frame hupd
            ⟨o, List.mem_of_find?_eq_some hfind, rfl, rfl⟩) ?_
        exact ih _

/-- C9 as amended: the creation timestamp of a stored booking is never
changed by any operation (new rows get the current time); every
save-based mutation — owner cancellation, owner reschedule, the staff
individual save and the bulk confirm/cancel actions — refreshes the
saved row's last-updated timestamp; but the bulk `mark_completed` action
mutates statuses through a queryset update that leaves every last-updated
timestamp untouched. -/
theorem C9_amended_timestamps (gw : Gateway) (now uid pk : Nat)
    (user : Option UserRow) (f : FormData) (preRows : List BookingRow)
    (n : BookingRow) (pks : List Nat) (target : String) (s : DBState) :
    FramePreserved s.bookings (cancelOp gw now uid pk s).2.bookings ∧
    FramePreserved s.bookings
      (rescheduleOp gw now uid pk f preRows s).2.bookings ∧
    FramePreserved s.bookings (adminSaveOp gw now n s).2.bookings ∧
    FramePreserved s.bookings (markBulk gw now target pks s).1.bookings ∧
    FramePreserved s.bookings (markCompletedOp pks s).1.bookings ∧
    (∀ r2 ∈ (createOp gw now user f preRows s).2.bookings,
      r2 ∈ s.bookings ∨ (r2.created_at = now ∧ r2.updated_at = now)) ∧
    (∀ b, s.bookings.find? (fun r => r.id == pk && r.userId == some uid)
        = some b →
      (cancelOp gw now uid pk s).1 = .canceledOk →
      ∃ r2 ∈ (cancelOp gw now uid pk s).2.bookings,
        r2.id = pk ∧ r2.updated_at = now ∧ r2.status = "canceled") ∧
    (∀ o, s.bookings.find? (fun r => r.id == pk) = some o →
      (markBulk gw now target [pk] s).2 = true →
      ∃ r2 ∈ (markBulk gw now target [pk] s).1.bookings,
        r2.id = pk ∧ r2.updated_at = now ∧ r2.status = target) ∧
    (∀ b, s.bookings.find? (fun r => r.id == pk && r.userId == some uid)
        = some b →
      (rescheduleOp gw now uid pk f preRows s).1 = .rescheduledOk →
      ∃ r2 ∈ (rescheduleOp gw now uid pk f preRows s).2.bookings,
        r2.id = pk ∧ r2.updated_at = now ∧ r2.status = "rescheduled") ∧
    (∀ o, s.bookings.find? (fun r => r.id == n.id) = some o →
      (adminSaveOp gw now n s).1 = .saved →
      ∃ r2 ∈ (adminSaveOp gw now n s).2.bookings,
        r2.id = n.id ∧ r2.updated_at = now ∧ r2.status = n.status) ∧
    ((markCompletedOp pks s).1.bookings.map BookingRow.updated_at
      = s.bookings.map BookingRow.updated_at) := by
  refine ⟨?_, ?_, ?_, markBulk_frame gw now target pks s, ?_, ?_, ?_, ?_, ?_,
    ?_, ?_⟩
  · unfold cancelOp
    rcases hfind : s.bookings.find?
        (fun r => r.id == pk && r.userId == some uid) with _ | b
    · rw [hfind]
      exact framePreserved_refl s.bookings
    · rw [hfind]
      dsimp only
      by_cases hterm : (b.status == "canceled" || b.status == "completed") = true
      · rw [if_pos hterm]
        exact framePreserved_refl s.bookings
      · rw [if_neg hterm]
        rcases hupd : updateChecked s.bookings (cancelRow b now) with _ | rows
        · exact framePreserved_refl s.bookings
        · exact updateChecked_frame hupd
            ⟨b, List.mem_of_find?_eq_some hfind, rfl, rfl⟩
  · unfold rescheduleOp
    rcases hfind : s.bookings.find?
        (fun r => r.id == pk && r.userId == some uid) with _ | b
    · rw [hfind]
      exact framePreserved_refl s.bookings
    · rw [hfind]
      dsimp only
      by_cases h1 : reschedUserPre uid pk f preRows = true
      · rw [if_pos h1]
        exact framePreserved_refl s.bookings
      · rw [if_neg h1]
        by_cases h2 : reschedGuestPre pk f preRows = true
        · rw [if_pos h2]
          exact framePreserved_refl s.bookings
        · rw [if_neg h2]
          by_cases h3 : reschedVehiclePre pk f preRows = true
          · rw [if_pos h3]
            exact framePreserved_refl s.bookings
          · rw [if_neg h3]
            rcases hupd : updateChecked s.bookings (reschedRow b f now)
              with _ | rows
            · exact framePreserved_refl s.bookings
            · exact updateChecked_frame hupd
                ⟨b, List.mem_of_find?_eq_some hfind, rfl, rfl⟩
  · unfold adminSaveOp
    rcases hupd : updateChecked s.bookings
        (adminRow n (s.bookings.find? (fun r => r.id == n.id)) now)
      with _ | rows
    · exact framePreserved_refl s.bookings
    · have hframe : FramePreserved s.bookings rows := by
        rcases hfind : s.bookings.find? (fun r => r.id == n.id) with _ | o
        · rw [hfind] at hupd
          refine updateChecked_frame_none hupd ?_
          intro r hr
          have hno := List.find?_eq_none.mp hfind r hr
          simpa [adminRow] using hno
        · rw [hfind] at hupd
          have hoid := List.find?_some hfind
          simp only [beq_iff_eq] at hoid
          refine updateChecked_frame hupd
            ⟨o, List.mem_of_find?_eq_some hfind, ?_, ?_⟩
          · simp [adminRow, hoid]
          · simp [adminRow]
      rcases hst : (s.bookings.find? (fun r => r.id == n.id)).map
          BookingRow.status with _ | oldStatus
      · rw [hst]
        exact hframe
      · rw [hst]
        dsimp only
        split
        · exact hframe
        · exact hframe
  · unfold markCompletedOp
    split
    · intro r2 hr2
      unfold completedRows at hr2
      obtain ⟨r, hr, heq⟩ := List.mem_map.mp hr2
      refine ⟨r, hr, ?_, ?_⟩ <;> rw [← heq] <;> split <;> rfl
    · exact framePreserved_refl s.bookings
  · unfold createOp
    split
    · exact fun r2 hr2 => Or.inl hr2
    · split
      · exact fun r2 hr2 => Or.inl hr2
      · split
        · exact fun r2 hr2 => Or.inl hr2
        · rcases hins : insertChecked s.bookings
              (newBookingRow s.nextId user f now) with _ | rows
          · exact fun r2 hr2 => Or.inl hr2
          · intro r2 hr2
            have hr2b : r2 ∈ rows := hr2
            rw [insertChecked_ok_eq hins] at hr2b
            rcases List.mem_append.mp hr2b with h | h
            · exact Or.inl h
            · rw [List.mem_singleton] at h
              subst h
              exact Or.inr ⟨rfl, rfl⟩
  · intro b hfind hok
    unfold cancelOp at hok ⊢
    rw [hfind] at hok ⊢
    dsimp only at hok ⊢
    by_cases hterm : (b.status == "canceled" || b.status == "completed") = true
    · rw [if_pos hterm] at hok
      exact absurd hok (by simp)
    · rw [if_neg hterm] at hok ⊢
      rcases hupd : updateChecked s.bookings (cancelRow b now) with _ | rows
      · rw [hupd] at hok
        exact absurd hok (by simp)
      · refine ⟨cancelRow b now, ?_, ?_, rfl, rfl⟩
        · show cancelRow b now ∈ rows
          rw [updateChecked_ok_eq hupd]
          exact List.mem_map.mpr
            ⟨b, List.mem_of_find?_eq_some hfind, by simp [cancelRow]⟩
        · show (cancelRow b now).id = pk
          have hpred := List.find?_some hfind
          simp only [Bool.and_eq_true, beq_iff_eq] at hpred
          simpa [cancelRow] using hpred.1
  · intro o hfind hok
    simp only [markBulk] at hok ⊢
    rw [hfind] at hok ⊢
    dsimp only at hok ⊢
    rcases hupd : updateChecked s.bookings
        { o with status := target, updated_at := now } with _ | rows
    · rw [hupd] at hok
      exact absurd hok (by simp)
    · refine ⟨{ o with status := target, updated_at := now }, ?_, ?_, rfl, rfl⟩
      · show ({ o with status := target, updated_at := now }) ∈ rows
        rw [updateChecked_ok_eq hupd]
        exact List.mem_map.mpr
          ⟨o, List.mem_of_find?_eq_some hfind, by simp⟩
      · show ({ o with status := target, updated_at := now }).id = pk
        have hpo := List.find?_some hfind
        simp only [beq_iff_eq] at hpo
        exact hpo
  · intro b hfind hok
    unfold rescheduleOp at hok ⊢
    rw [hfind] at hok ⊢
    dsimp only at hok ⊢
    by_cases h1 : reschedUserPre uid pk f preRows = true
    · rw [if_pos h1] at hok
      exact absurd hok (by simp)
    · rw [if_neg h1] at hok ⊢
      by_cases h2 : reschedGuestPre pk f preRows = true
      · rw [if_pos h2] at hok
        exact absurd hok (by simp)
      · rw [if_neg h2] at hok ⊢
        by_cases h3 : reschedVehiclePre pk f preRows = true
        · rw [if_pos h3] at hok
          exact absurd hok (by simp)
        · rw [if_neg h3] at hok ⊢
          rcases hupd : updateChecked s.bookings (reschedRow b f now)
            with _ | rows
          · rw [hupd] at hok
            exact absurd hok (by simp)
          · refine ⟨reschedRow b f now, ?_, ?_, rfl, rfl⟩
            · show reschedRow b f now ∈ rows
              rw [updateChecked_ok_eq hupd]
              exact List.mem_map.mpr
                ⟨b, List.mem_of_find?_eq_some hfind, by simp [reschedRow]⟩
            · show (reschedRow b f now).id = pk
              have hpred := List.find?_some hfind
              simp only [Bool.and_eq_true, beq_iff_eq] at hpred
              simpa [reschedRow] using hpred.1
  · intro o hfind hok
    unfold adminSaveOp at hok ⊢
    rw [hfind] at hok ⊢
    have hoid := List.find?_some hfind
    simp only [beq_iff_eq] at hoid
    rcases hupd : updateChecked s.bookings (adminRow n (some o) now)
      with _ | rows
    · rw [hupd] at hok
      exact absurd hok (by simp)
    · simp only [Option.map_some']
      split
      · refine ⟨adminRow n (some o) now, ?_, rfl, rfl, rfl⟩
        show adminRow n (some o) now ∈ rows
        rw [updateChecked_ok_eq hupd]
        exact List.mem_map.mpr
          ⟨o, List.mem_of_find?_eq_some hfind, by simp [adminRow, hoid]⟩
      · refine ⟨adminRow n (some o) now, ?_, rfl, rfl, rfl⟩
        show adminRow n (some o) now ∈ rows
        rw [updateChecked_ok_eq hupd]
        exact List.mem_map.mpr
          ⟨o, List.mem_of_find?_eq_some hfind, by simp [adminRow, hoid]⟩
  · unfold markCompletedOp
    split
    · show (completedRows pks s.bookings).map BookingRow.updated_at
        = s.bookings.map BookingRow.updated_at
      unfold completedRows
      rw [List.map_map]
      congr 1
      funext r
      show (if pks.contains r.id then { r with status := "completed" }
        else r).updated_at = r.updated_at
      split <;> rfl
    · rfl


theorem C9_amended_witness :
    ∃ r2 ∈ (cancelOp gwSent 9 7 1 pendingState).2.bookings,
      r2.id = 1 ∧ r2.updated_at = 9 ∧ r2.status = "canceled" :=
  (C9_amended_timestamps gwSent 9 7 1 none sampleForm [] pendingBooking []
    "confirmed" pendingState).2.2.2.2.2.2.1 pendingBooking (by decide)
    (by decide)

/-- C4: after a booking is canceled, any new creation whose requested slot
has no other active booking succeeds — in particular one for the canceled
booking's vehicle at its (date, time), or for the same requester identity
at that (date, time) with any vehicle: both the advisory pre-checks and
the storage constraints pass. -/
theorem C4_cancel_frees_slot (gw gw2 : Gateway) (now now2 uid pk : Nat)
    (user2 : Option UserRow) (f : FormData) (s s1 : DBState) (b : BookingRow)
    (hfind : s.bookings.find? (fun r => r.id == pk && r.userId == some uid)
      = some b)
    (hcancel : cancelOp gw now uid pk s = (.canceledOk, s1))
    (hothers : ∀ r ∈ s.bookings, r.id ≠ pk →
      (r.status = "canceled" ∨ slotMatches f r = false)) :
    (createOp gw2 now2 user2 f s1.bookings s1).1 = .created := by
  have hbid : b.id = pk := by
    have hp := List.find?_some hfind
    simp only [Bool.and_eq_true, beq_iff_eq] at hp
    exact hp.1
  -- recover the state the cancellation committed
  unfold cancelOp at hcancel
  rw [hfind] at hcancel
  dsimp only at hcancel
  by_cases hterm : (b.status == "canceled" || b.status == "completed") = true
  · rw [if_pos hterm] at hcancel
    simp at hcancel
  · rw [if_neg hterm] at hcancel
    rcases hupd : updateChecked s.bookings (cancelRow b now) with _ | rows
    · rw [hupd] at hcancel
      simp at hcancel
    · rw [hupd] at hcancel
      have hs1 : ({ s with
          bookings := rows,
          emailLogs := (sendBookingStatusUpdate gw (cancelRow b now) true
            s.emailLogs).2 } : DBState) = s1 := congrArg Prod.snd hcancel
      have hsb : s1.bookings = rows := by rw [← hs1]
      -- every row in the post-cancel table is canceled or off the slot
      have hkey : ∀ r1 ∈ s1.bookings,
          r1.status = "canceled" ∨ slotMatches f r1 = false := by
        intro r1 hr1
        rw [hsb, updateChecked_ok_eq hupd] at hr1
        obtain ⟨r, hr, heq⟩ := List.mem_map.mp hr1
        by_cases hid : (r.id == (cancelRow b now).id) = true
        · rw [if_pos hid] at heq
          subst heq
          exact Or.inl rfl
        · rw [if_neg hid] at heq
          subst heq
          refine hothers r hr ?_
          intro hrid
          exact hid (by simp [cancelRow, hrid, hbid])
      have hq : ∀ r1 ∈ activeQs s1.bookings, slotMatches f r1 = false := by
        intro r1 hr1
        unfold activeQs at hr1
        obtain ⟨hr1m, hr1s⟩ := List.mem_filter.mp hr1
        rcases hkey r1 hr1m with h | h
        · rw [h] at hr1s
          simp at hr1s
        · exact h
      have hanyq : ∀ (p : BookingRow → Bool),
          (∀ r1 ∈ activeQs s1.bookings, p r1 = false) →
          (activeQs s1.bookings).any p = false := by
        intro p hp
        simp only [List.any_eq_false]
        intro r1 hr1
        simp [hp r1 hr1]
      have h1 : createUserPre user2 f s1.bookings = false := by
        unfold createUserPre
        rw [hanyq _ (fun r1 hr1 => by simp [hq r1 hr1])]
        simp
      have h2 : createGuestPre f s1.bookings = false := by
        unfold createGuestPre
        rw [hanyq _ (fun r1 hr1 => by simp [hq r1 hr1])]
        simp
      have h3 : createVehiclePre f s1.bookings = false := by
        unfold createVehiclePre
        exact hanyq _ (fun r1 hr1 => by simp [hq r1 hr1])
      have hnoc : ∀ r1 ∈ s1.bookings,
          conflicts r1 (newBookingRow s1.nextId user2 f now2) = false := by
        intro r1 hr1
        rcases hkey r1 hr1 with h | h
        · simp [conflicts, h]
        · have hss : sameSlot r1 (newBookingRow s1.nextId user2 f now2)
              = false := by
            unfold sameSlot
            unfold slotMatches at h
            simpa [newBookingRow] using h
          simp [conflicts, hss]
      have hguard : (s1.bookings.any (fun r =>
          r.id != (newBookingRow s1.nextId user2 f now2).id &&
          conflicts r (newBookingRow s1.nextId user2 f now2))) = false := by
        simp only [List.any_eq_false]
        intro r1 hr1
        simp [hnoc r1 hr1]
      unfold createOp insertChecked
      rw [h1, h2, h3, hguard]
      simp

theorem C4_witness :
    (createOp gwSent 3 (some sampleUser) sampleForm canceledState.bookings
      canceledState).1 = .created :=
  C4_cancel_frees_slot gwSent gwSent 2 3 7 1 (some sampleUser) sampleForm
    pendingState canceledState pendingBooking (by decide) rfl (by decide)


theorem conflicts_true_symm (a b : BookingRow) (h : conflicts a b = true) :
    conflicts b a = true := by
  unfold conflicts sameSlot at h ⊢
  simp only [Bool.and_eq_true, Bool.or_eq_true, bne_iff_ne, beq_iff_eq] at h ⊢
  obtain ⟨⟨⟨h1, h2⟩, hd, ht⟩, hD⟩ := h
  refine ⟨⟨⟨h2, h1⟩, hd.symm, ht.symm⟩, ?_⟩
  rcases hD with (⟨hsome, hu⟩ | ⟨hn, hm⟩) | hv
  · exact Or.inl (Or.inl ⟨hu ▸ hsome, hu.symm⟩)
  · exact Or.inl (Or.inr ⟨hn.symm, hm.symm⟩)
  · exact Or.inr hv.symm

theorem conflicts_false_symm {a b : BookingRow} (h : conflicts a b = false) :
    conflicts b a = false := by
  cases hc : conflicts b a
  · rfl
  · exact absurd (conflicts_true_symm b a hc) (by simp [h])

theorem guard_false_pointwise {rows : List BookingRow} {n : BookingRow}
    (h : (rows.any (fun r => r.id != n.id && conflicts r n)) = false) :
    ∀ r ∈ rows, r.id ≠ n.id → conflicts r n = false := by
  intro r hr hne
  have hr2 := List.any_eq_false.mp h r hr
  simp only [Bool.and_eq_true, bne_iff_ne] at hr2
  cases hc : conflicts r n
  · rfl
  · exact absurd ⟨hne, hc⟩ hr2

theorem pairOk_insert {rows rows2 : List BookingRow} {n : BookingRow}
    (hp : PairOk rows) (hfresh : ∀ r ∈ rows, r.id ≠ n.id)
    (h : insertChecked rows n = .ok rows2) : PairOk rows2 := by
  have hpt := guard_false_pointwise (insertChecked_ok_guard h)
  have heq := insertChecked_ok_eq h
  subst heq
  intro a ha b hb hne
  rcases List.mem_append.mp ha with ha2 | ha2 <;>
    rcases List.mem_append.mp hb with hb2 | hb2
  · exact hp a ha2 b hb2 hne
  · rw [List.mem_singleton] at hb2
    subst hb2
    exact hpt a ha2 (hfresh a ha2)
  · rw [List.mem_singleton] at ha2
    subst ha2
    exact conflicts_false_symm (hpt b hb2 (hfresh b hb2))
  · rw [List.mem_singleton] at ha2 hb2
    subst ha2
    subst hb2
    exact absurd rfl hne

theorem pairOk_update {rows rows2 : List BookingRow} {n : BookingRow}
    (hp : PairOk rows) (h : updateChecked rows n = .ok rows2) :
    PairOk rows2 := by
  have hpt := guard_false_pointwise (updateChecked_ok_guard h)
  have heq := updateChecked_ok_eq h
  subst heq
  intro a2 ha2 b2 hb2 hne
  obtain ⟨a, ha, haeq⟩ := List.mem_map.mp ha2
  obtain ⟨b, hb, hbeq⟩ := List.mem_map.mp hb2
  by_cases hida : (a.id == n.id) = true <;>
    by_cases hidb : (b.id == n.id) = true
  · rw [if_pos hida] at haeq
    rw [if_pos hidb] at hbeq
    subst haeq
    subst hbeq
    exact absurd rfl hne
  · rw [if_pos hida] at haeq
    rw [if_neg hidb] at hbeq
    subst haeq
    subst hbeq
    exact conflicts_false_symm
      (hpt b hb (fun he => hidb (by simp [he])))
  · rw [if_neg hida] at haeq
    rw [if_pos hidb] at hbeq
    subst haeq
    subst hbeq
    exact hpt a ha (fun he => hida (by simp [he]))
  · rw [if_neg hida] at haeq
    rw [if_neg hidb] at hbeq
    subst haeq
    subst hbeq
    exact hp a ha b hb hne

theorem updateChecked_ids {rows rows2 : List BookingRow} {n : BookingRow}
    (h : updateChecked rows n = .ok rows2) :
    ∀ a2 ∈ rows2, ∃ a ∈ rows, a2.id = a.id := by
  intro a2 ha2
  rw [updateChecked_ok_eq h] at ha2
  obtain ⟨a, ha, haeq⟩ := List.mem_map.mp ha2
  by_cases hid : (a.id == n.id) = true
  · rw [if_pos hid] at haeq
    subst haeq
    exact ⟨a, ha, (beq_iff_eq.mp hid).symm⟩
  · rw [if_neg hid] at haeq
    subst haeq
    exact ⟨a, ha, rfl⟩

theorem consistentB_pairOk {rows : List BookingRow}
    (h : consistentB rows = true) : PairOk rows := by
  unfold consistentB at h
  simp only [List.all_eq_true, Bool.or_eq_true, beq_iff_eq,
    Bool.not_eq_true'] at h
  intro a ha b hb hne
  rcases h a ha b hb with h2 | h2
  · exact absurd h2 hne
  · exact h2

theorem createOp_inv (gw : Gateway) (now : Nat) (user : Option UserRow)
    (f : FormData) (preRows : List BookingRow) {s : DBState} (h : Inv s) :
    Inv (createOp gw now user f preRows s).2 := by
  unfold createOp
  split
  · exact h
  · split
    · exact h
    · split
      · exact h
      · rcases hins : insertChecked s.bookings
            (newBookingRow s.nextId user f now) with _ | rows
        · exact h
        · refine ⟨pairOk_insert h.1
            (fun r hr => Nat.ne_of_lt (h.2 r hr)) hins, ?_⟩
          intro a2 ha2
          rw [insertChecked_ok_eq hins] at ha2
          rcases List.mem_append.mp ha2 with hm | hm
          · exact Nat.lt_succ_of_lt (h.2 a2 hm)
          · rw [List.mem_singleton] at hm
            subst hm
            exact Nat.lt_succ_self s.nextId

theorem cancelOp_inv (gw : Gateway) (now uid pk : Nat) {s : DBState}
    (h : Inv s) : Inv (cancelOp gw now uid pk s).2 := by
  unfold cancelOp
  rcases hfind : s.bookings.find?
      (fun r => r.id == pk && r.userId == some uid) with _ | b
  · rw [hfind]
    exact h
  · rw [hfind]
    dsimp only
    by_cases hterm : (b.status == "canceled" || b.status == "completed") = true
    · rw [if_pos hterm]
      exact h
    · rw [if_neg hterm]
      rcases hupd : updateChecked s.bookings (cancelRow b now) with _ | rows
      · exact h
      · refine ⟨pairOk_update h.1 hupd, ?_⟩
        intro a2 ha2
        obtain ⟨a, ha, heq⟩ := updateChecked_ids hupd a2 ha2
        rw [heq]
        exact h.2 a ha

theorem rescheduleOp_inv (gw : Gateway) (now uid pk : Nat) (f : FormData)
    (preRows : List BookingRow) {s : DBState} (h : Inv s) :
    Inv (rescheduleOp gw now uid pk f preRows s).2 := by
  unfold rescheduleOp
  rcases hfind : s.bookings.find?
      (fun r => r.id == pk && r.userId == some uid) with _ | b
  · rw [hfind]
    exact h
  · rw [hfind]
    dsimp only
    split
    · exact h
    · split
      · exact h
      · split
        · exact h
        · rcases hupd : updateChecked s.bookings (reschedRow b f now)
            with _ | rows
          · exact h
          · refine ⟨pairOk_update h.1 hupd, ?_⟩
            intro a2 ha2
            obtain ⟨a, ha, heq⟩ := updateChecked_ids hupd a2 ha2
            rw [heq]
            exact h.2 a ha

theorem adminSaveOp_inv (gw : Gateway) (now : Nat) (n : BookingRow)
    {s : DBState} (h : Inv s) : Inv (adminSaveOp gw now n s).2 := by
  unfold adminSaveOp
  rcases hupd : updateChecked s.bookings
      (adminRow n (s.bookings.find? (fun r => r.id == n.id)) now)
    with _ | rows
  · exact h
  · have hinv2 : Inv { s with bookings := rows } := by
      refine ⟨pairOk_update h.1 hupd, ?_⟩
      intro a2 ha2
      obtain ⟨a, ha, heq⟩ := updateChecked_ids hupd a2 ha2
      rw [heq]
      exact h.2 a ha
    rcases hst : (s.bookings.find? (fun r => r.id == n.id)).map
        BookingRow.status with _ | oldStatus
    · rw [hst]
      exact hinv2
    · rw [hst]
      dsimp only
      split
      · exact hinv2
      · exact hinv2

theorem markBulk_inv (gw : Gateway) (now : Nat) (target : String) :
    ∀ (pks : List Nat) {s : DBState}, Inv s →
      Inv (markBulk gw now target pks s).1 := by
  intro pks
  induction pks with
  | nil => exact fun h => h
  | cons pk rest ih =>
    intro s h
    simp only [markBulk]
    rcases hfind : s.bookings.find? (fun r => r.id == pk) with _ | o
    · rw [hfind]
      exact ih h
    · rw [hfind]
      dsimp only
      rcases hupd : updateChecked s.bookings
          { o with status := target, updated_at := now } with _ | rows
      · exact h
      · refine ih ⟨pairOk_update h.1 hupd, ?_⟩
        intro a2 ha2
        obtain ⟨a, ha, heq⟩ := updateChecked_ids hupd a2 ha2
        rw [heq]
        exact h.2 a ha

theorem markCompletedOp_inv (pks : List Nat) {s : DBState} (h : Inv s) :
    Inv (markCompletedOp pks s).1 := by
  unfold markCompletedOp
  split
  next hcons =>
    refine ⟨consistentB_pairOk hcons, ?_⟩
    intro a2 ha2
    unfold completedRows at ha2
    obtain ⟨a, ha, heq⟩ := List.mem_map.mp ha2
    have hid : a2.id = a.id := by
      rw [← heq]
      split <;> rfl
    rw [hid]
    exact h.2 a ha
  next => exact h

theorem step_inv {s t : DBState} (h : Inv s) (hs : Step s t) : Inv t := by
  cases hs with
  | create gw now user f preRows s => exact createOp_inv gw now user f preRows h
  | cancel gw now uid pk s => exact cancelOp_inv gw now uid pk h
  | reschedule gw now uid pk f preRows s =>
      exact rescheduleOp_inv gw now uid pk f preRows h
  | adminSave gw now n s => exact adminSaveOp_inv gw now n h
  | bulkConfirmed gw now pks s => exact markBulk_inv gw now "confirmed" pks h
  | bulkCanceled gw now pks s => exact markBulk_inv gw now "canceled" pks h
  | bulkCompleted pks s => exact markCompletedOp_inv pks h

theorem reachable_inv {s : DBState} (h : Reachable s) : Inv s := by
  induction h with
  | init =>
      exact ⟨fun a ha => absurd ha (List.not_mem_nil a),
        fun a ha => absurd ha (List.not_mem_nil a)⟩
  | step hr hstep ih => exact step_inv ih hstep

/-- C1: in every state reachable by any sequence of create/transition
operations, no two distinct non-canceled bookings share the same
registered user and slot, the same guest identity and slot, or the same
vehicle and slot — the storage-level uniqueness invariant. -/
theorem C1_storage_uniqueness (s : DBState) (h : Reachable s) :
    ∀ a ∈ s.bookings, ∀ b ∈ s.bookings, a.id ≠ b.id →
      a.status ≠ "canceled" → b.status ≠ "canceled" →
      (¬(a.userId.isSome = true ∧ a.userId = b.userId ∧
         a.requested_date = b.requested_date ∧
         a.requested_time = b.requested_time)) ∧
      (¬(a.guest_name = b.guest_name ∧ a.guest_email = b.guest_email ∧
         a.requested_date = b.requested_date ∧
         a.requested_time = b.requested_time)) ∧
      (¬(a.vehicle = b.vehicle ∧
         a.requested_date = b.requested_date ∧
         a.requested_time = b.requested_time)) := by
  intro a ha b hb hne hsa hsb
  have hconf : conflicts a b = false := (reachable_inv h).1 a ha b hb hne
  refine ⟨?_, ?_, ?_⟩
  · rintro ⟨h1, h2, h3, h4⟩
    have hc : conflicts a b = true := by
      unfold conflicts sameSlot
      simp only [Bool.and_eq_true, Bool.or_eq_true, bne_iff_ne, beq_iff_eq]
      exact ⟨⟨⟨hsa, hsb⟩, h3, h4⟩, Or.inl (Or.inl ⟨h1, h2⟩)⟩
    exact absurd hc (by simp [hconf])
  · rintro ⟨h1, h2, h3, h4⟩
    have hc : conflicts a b = true := by
      unfold conflicts sameSlot
      simp only [Bool.and_eq_true, Bool.or_eq_true, bne_iff_ne, beq_iff_eq]
      exact ⟨⟨⟨hsa, hsb⟩, h3, h4⟩, Or.inl (Or.inr ⟨h1, h2⟩)⟩
    exact absurd hc (by simp [hconf])
  · rintro ⟨h1, h3, h4⟩
    have hc : conflicts a b = true := by
      unfold conflicts sameSlot
      simp only [Bool.and_eq_true, Bool.or_eq_true, bne_iff_ne, beq_iff_eq]
      exact ⟨⟨⟨hsa, hsb⟩, h3, h4⟩, Or.inr h1⟩
    exact absurd hc (by simp [hconf])

theorem C1_witness :
    (¬(rowA.userId.isSome = true ∧ rowA.userId = rowB.userId ∧
       rowA.requested_date = rowB.requested_date ∧
       rowA.requested_time = rowB.requested_time)) ∧
    (¬(rowA.guest_name = rowB.guest_name ∧
       rowA.guest_email = rowB.guest_email ∧
       rowA.requested_date = rowB.requested_date ∧
       rowA.requested_time = rowB.requested_time)) ∧
    (¬(rowA.vehicle = rowB.vehicle ∧
       rowA.requested_date = rowB.requested_date ∧
       rowA.requested_time = rowB.requested_time)) :=
  C1_storage_uniqueness reachedState2
    (Reachable.step
      (Reachable.step Reachable.init
        (Step.create gwSent 0 (some sampleUser) sampleForm [] dbInit))
      (Step.create gwSent 1 none otherSlotForm [] reachedState1))
    rowA (by decide) rowB (by decide) (by decide) (by decide) (by decide)

end TestDrive
